import Mathlib

/-!
Verification of the orchestration core of the domain-bound-agent-swarm
repository: the event bus (publish / subscribe / unsubscribe), the agent
runtime (agent registration, the recurring content-generation job, the
CONTENT_CREATED handler) and the content generator (template lookup,
prompt building, validation, performance-score parsing).

The embedding is shallow: TypeScript classes become Lean structures,
`Map` objects become association lists (insertion ordered, unique keys),
`Promise` rejection becomes `Except String`, and the external collaborators
(the OpenAI engine, platform adapters, JSON parsing of engine replies,
uuid / Math.random id supplies, wall-clock dates) are oracle parameters.
JavaScript floating-point fields that no logic reads (topic weights,
temperature) are embedded as rationals.
-/

/-- `Platform` enum from src/domain/types.ts. -/
inductive Platform where
  | TWITTER
  | TELEGRAM
  | DISCORD
deriving DecidableEq

/-- The string value of each `Platform` enum case. -/
def Platform.str : Platform → String
  | .TWITTER => "twitter"
  | .TELEGRAM => "telegram"
  | .DISCORD => "discord"

/-- `EventType` enum from the EventBus module. -/
inductive EventType where
  | CONTENT_CREATED
  | CONTENT_SCHEDULED
  | CONTENT_PUBLISHED
  | ENGAGEMENT_RECEIVED
  | TREND_DETECTED
  | STRATEGY_UPDATED
  | ANALYTICS_UPDATED
deriving DecidableEq

/-- The string value of each `EventType` enum case. -/
def EventType.str : EventType → String
  | .CONTENT_CREATED => "content.created"
  | .CONTENT_SCHEDULED => "content.scheduled"
  | .CONTENT_PUBLISHED => "content.published"
  | .ENGAGEMENT_RECEIVED => "engagement.received"
  | .TREND_DETECTED => "trend.detected"
  | .STRATEGY_UPDATED => "strategy.updated"
  | .ANALYTICS_UPDATED => "analytics.updated"

/-- One media attachment of a `PostContent` (platforms/PlatformAdapter.ts). -/
structure MediaRef where
  kind : String
  url : String
deriving DecidableEq

/-- `PostContent` from platforms/PlatformAdapter.ts.  The free-form
`metadata: Record<string, any>` object is embedded as a string association
list. -/
structure PostContent where
  text : String
  media : List MediaRef := []
  meta : List (String × String) := []
deriving DecidableEq

/-- `PostResponse` from platforms/PlatformAdapter.ts (`timestamp: Date`
embedded as a natural number of milliseconds). -/
structure PostResponse where
  id : String
  platform : Platform
  url : Option String := none
  timestamp : Nat
deriving DecidableEq

/-- `ContentStrategy` from src/domain/types.ts.  The `topicWeights`
map carries JavaScript numbers (0.4 etc.), embedded as rationals. -/
structure ContentStrategy where
  postFrequency : Nat
  topicWeights : List (String × ℚ)
  contentTypes : List String
  replyStrategy : String
  retweetPolicy : String
  mentionHandling : String
deriving DecidableEq

/-- `AgentProfile` from src/domain/types.ts. -/
structure AgentProfile where
  id : String
  name : String
  description : String
  tone : String
  languageStyle : String
  personalityTraits : List String
deriving DecidableEq

/-- `Analytics` from src/domain/types.ts (numeric rates as rationals). -/
structure Analytics where
  engagementRate : ℚ
  followerGrowth : ℚ
  contentPerformance : List (String × ℚ)
  demographics : List (String × ℚ)
  activeHours : List Nat
  topInterests : List String
deriving DecidableEq

/-- `SocialAgent` from src/domain/types.ts. -/
structure SocialAgent where
  id : String
  domain : String
  personality : AgentProfile
  platforms : List Platform
  contentStrategy : ContentStrategy
  analytics : Analytics
deriving DecidableEq

/-- The payload slot of an `Event` (`payload: any` in the source).  The
core stores either generated post content (CONTENT_CREATED /
CONTENT_PUBLISHED) or a content strategy (STRATEGY_UPDATED); the bus
itself treats it as opaque. -/
inductive EventPayload where
  | post (c : PostContent)
  | strategy (s : ContentStrategy)
  | raw (s : String)
deriving DecidableEq

/-- `Event.metadata` from the EventBus module.  `platform` is an `Option`
because the source can store `platforms[0]` of an empty array
(`undefined`). -/
structure EventMeta where
  domain : String
  platform : Option Platform
  priority : Nat
deriving DecidableEq

/-- `Event` from the EventBus module (`timestamp: Date` as milliseconds). -/
structure Event where
  id : String
  type : EventType
  agentId : String
  timestamp : Nat
  payload : EventPayload
  metadata : EventMeta
deriving DecidableEq

/-!
Event bus.

Embedding of the `Map<EventType, Set<EventHandler>>`-based `EventBus`
draft appended to src/agents/__tests__/AgentRuntime.test.ts (the draft the
spec describes: concurrent fan-out with per-handler error catching).
The handler map is an insertion-ordered association list with unique keys;
a JS `Set` of handler references is an insertion-ordered duplicate-free
list of handler identifiers.
-/

/-- The `handlers : Map<EventType, Set<EventHandler>>` field of the bus. -/
abbrev Bus := List (EventType × List Nat)

/-- `Map.get`: the first entry with the given key, if any. -/
def busGet : Bus → EventType → Option (List Nat)
  | [], _ => none
  | (u, l) :: rest, t => if u = t then some l else busGet rest t

/-- `this.handlers.get(event.type) || new Set()` from `publish`. -/
def busHandlers (b : Bus) (t : EventType) : List Nat :=
  (busGet b t).getD []

/-- `Map.delete`: drop the entry with the given key. -/
def busRemove : Bus → EventType → Bus
  | [], _ => []
  | (u, l) :: rest, t =>
    if u = t then busRemove rest t else (u, l) :: busRemove rest t

/-- `Map.set` on a key that is already present: replace its value in
place. -/
def busSetAt : Bus → EventType → List Nat → Bus
  | [], _, _ => []
  | (u, l) :: rest, t, v =>
    if u = t then (t, v) :: busSetAt rest t v else (u, l) :: busSetAt rest t v

/-- `subscribe(eventType, handler)`: create the entry if missing
(`Map.set` appends a fresh key), then `Set.add` the handler (a no-op when
the same reference is already present). -/
def subscribe (b : Bus) (t : EventType) (h : Nat) : Bus :=
  match busGet b t with
  | none => b ++ [(t, [h])]
  | some l => busSetAt b t (if h ∈ l then l else l ++ [h])

/-- `unsubscribe(eventType, handler)`: if the type has an entry,
`Set.delete` the handler and drop the entry when the set became empty;
otherwise do nothing. -/
def unsubscribe (b : Bus) (t : EventType) (h : Nat) : Bus :=
  match busGet b t with
  | none => b
  | some l =>
    let l2 := l.erase h
    if l2 = [] then busRemove b t else busSetAt b t l2

/-- States of the handler map reachable through `subscribe` /
`unsubscribe`: keys are unique, and every registered set is non-empty and
duplicate-free (JS `Set` semantics). -/
def BusWF (b : Bus) : Prop :=
  (b.map Prod.fst).Nodup ∧ ∀ e ∈ b, e.2 ≠ [] ∧ e.2.Nodup

instance : DecidablePred BusWF := fun b => by
  unfold BusWF; infer_instance

/-- The behaviour of one handler on one event: the effects it performs,
or the error it throws.  Handlers are identified by number (JS function
references). -/
abbrev HandlerFun := Nat → Event → Except String (List String)

/-- What `publish` observes of one handler invocation. -/
structure HandlerOutcome where
  handlerId : Nat
  effects : List String
  log : Option String
deriving DecidableEq

/-- The per-handler `try { await handler(event) } catch { console.error }`
block inside `publish`: a thrown error is caught and logged, so the
wrapped invocation itself never rejects. -/
def attemptHandler (run : HandlerFun) (h : Nat) (e : Event) :
    Except String HandlerOutcome :=
  match run h e with
  | .ok effs => .ok ⟨h, effs, none⟩
  | .error err =>
    .ok ⟨h, [], some ("Error in event handler for " ++ e.type.str ++ ": " ++ err)⟩

/-- `publish(event)`: map the caught-handler block over every handler
registered under `event.type`, then `await Promise.all` inside one more
`try`/`catch` (which also only logs). -/
def publish (run : HandlerFun) (b : Bus) (e : Event) :
    Except String (List HandlerOutcome) :=
  match (busHandlers b e.type).mapM (fun h => attemptHandler run h e) with
  | .ok l => .ok l
  | .error _ => .ok []

/-- The declarative outcome of one handler, used to state what `publish`
returns. -/
def handlerOutcome (run : HandlerFun) (h : Nat) (e : Event) : HandlerOutcome :=
  match run h e with
  | .ok effs => ⟨h, effs, none⟩
  | .error err =>
    ⟨h, [], some ("Error in event handler for " ++ e.type.str ++ ": " ++ err)⟩

theorem attemptHandler_eq (run : HandlerFun) (h : Nat) (e : Event) :
    attemptHandler run h e = .ok (handlerOutcome run h e) := by
  unfold attemptHandler handlerOutcome
  cases run h e <;> rfl

theorem mapM_loop_ok {α β ε : Type} (f : α → β) (l : List α) (acc : List β) :
    List.mapM.loop (m := Except ε) (fun a => Except.ok (f a)) l acc =
      Except.ok (acc.reverse ++ l.map f) := by
  induction l generalizing acc with
  | nil => simp [List.mapM.loop, pure, Except.pure]
  | cons hd tl ih =>
    simp only [List.mapM.loop, bind, Except.bind, List.map]
    rw [ih]
    simp

theorem publish_eq_map (run : HandlerFun) (b : Bus) (e : Event) :
    publish run b e =
      .ok ((busHandlers b e.type).map (fun h => handlerOutcome run h e)) := by
  unfold publish
  have hfun : (fun h => attemptHandler run h e) =
      (fun h => Except.ok (handlerOutcome run h e)) := by
    funext h; exact attemptHandler_eq run h e
  rw [List.mapM, hfun, mapM_loop_ok]
  rfl

theorem busGet_busRemove (b : Bus) (t : EventType) :
    busGet (busRemove b t) t = none := by
  induction b with
  | nil => rfl
  | cons hd rest ih =>
    obtain ⟨u, l⟩ := hd
    by_cases hu : u = t
    · simpa [busRemove, hu] using ih
    · simp [busRemove, busGet, hu, ih]

theorem busGet_mem {b : Bus} {t : EventType} {l : List Nat}
    (hb : busGet b t = some l) : (t, l) ∈ b := by
  induction b with
  | nil => simp [busGet] at hb
  | cons hd rest ih =>
    obtain ⟨u, lv⟩ := hd
    by_cases hu : u = t
    · subst hu
      simp [busGet] at hb
      subst hb
      exact List.mem_cons_self _ _
    · simp [busGet, hu] at hb
      exact List.mem_cons_of_mem _ (ih hb)

theorem busSetAt_of_not_mem {b : Bus} {t : EventType} (v : List Nat)
    (ht : t ∉ b.map Prod.fst) : busSetAt b t v = b := by
  induction b with
  | nil => rfl
  | cons hd rest ih =>
    obtain ⟨u, lv⟩ := hd
    simp only [List.map, List.mem_cons] at ht
    push_neg at ht
    have hu : u ≠ t := fun he => ht.1 he.symm
    simp [busSetAt, hu, ih ht.2]

theorem busSetAt_self {b : Bus} {t : EventType} {l : List Nat}
    (hnd : (b.map Prod.fst).Nodup) (hb : busGet b t = some l) :
    busSetAt b t l = b := by
  induction b with
  | nil => rfl
  | cons hd rest ih =>
    obtain ⟨u, lv⟩ := hd
    simp only [List.map, List.nodup_cons] at hnd
    by_cases hu : u = t
    · subst hu
      simp [busGet] at hb
      subst hb
      simp [busSetAt, busSetAt_of_not_mem _ hnd.1]
    · simp [busGet, hu] at hb
      simp [busSetAt, hu, ih hnd.2 hb]

theorem busGet_busSetAt {b : Bus} {t : EventType} {l : List Nat} (v : List Nat)
    (hb : busGet b t = some l) : busGet (busSetAt b t v) t = some v := by
  induction b with
  | nil => simp [busGet] at hb
  | cons hd rest ih =>
    obtain ⟨u, lv⟩ := hd
    by_cases hu : u = t
    · simp [busSetAt, busGet, hu]
    · simp [busGet, hu] at hb
      simp [busSetAt, busGet, hu, ih hb]

theorem busSetAt_busSetAt (b : Bus) (t : EventType) (v : List Nat) :
    busSetAt (busSetAt b t v) t v = busSetAt b t v := by
  induction b with
  | nil => rfl
  | cons hd rest ih =>
    obtain ⟨u, lv⟩ := hd
    by_cases hu : u = t
    · simp [busSetAt, hu, ih]
    · simp [busSetAt, hu, ih]

/-- Claim C9: unsubscribing a handler that is not registered for a type
(including a second unsubscribe of the same handler, or a type with no
entry at all) leaves the bus unchanged and never errors, and removing the
last handler registered for a type deletes the type's registration entry
entirely. -/
theorem unsubscribe_spec (b : Bus) (t : EventType) (h : Nat) (hwf : BusWF b) :
    (h ∉ busHandlers b t → unsubscribe b t h = b)
    ∧ unsubscribe (unsubscribe b t h) t h = unsubscribe b t h
    ∧ (busGet b t = some [h] → busGet (unsubscribe b t h) t = none) := by
  obtain ⟨hnd, hent⟩ := hwf
  cases hb : busGet b t with
  | none =>
    refine ⟨fun _ => ?_, ?_, fun hcontra => ?_⟩
    · simp [unsubscribe, hb]
    · simp [unsubscribe, hb]
    · cases hcontra
  | some l =>
    have hmem : (t, l) ∈ b := busGet_mem hb
    have hl := hent _ hmem
    refine ⟨fun hnm => ?_, ?_, fun hlh => ?_⟩
    · have hbh : busHandlers b t = l := by simp [busHandlers, hb]
      rw [hbh] at hnm
      have herase : l.erase h = l := List.erase_of_not_mem hnm
      simp only [unsubscribe, hb, herase]
      rw [if_neg hl.1]
      exact busSetAt_self hnd hb
    · by_cases he : l.erase h = []
      · simp only [unsubscribe, hb, he, if_pos]
        simp [unsubscribe, busGet_busRemove]
      · simp only [unsubscribe, hb, if_neg he]
        have hget : busGet (busSetAt b t (l.erase h)) t = some (l.erase h) :=
          busGet_busSetAt _ hb
        have hno : h ∉ l.erase h := hl.2.not_mem_erase
        have herase2 : (l.erase h).erase h = l.erase h :=
          List.erase_of_not_mem hno
        simp only [unsubscribe, hget, herase2, if_neg he]
        exact busSetAt_busSetAt b t (l.erase h)
    · have hleq : l = [h] := by injection hlh
      subst hleq
      have herase : List.erase [h] h = [] := by simp
      simp only [unsubscribe, hb, herase, if_pos]
      exact busGet_busRemove b t

/-- A concrete bus with one handler set, used in C9's witness. -/
def busW9 : Bus := [(EventType.CONTENT_CREATED, [5, 8])]

theorem unsubscribe_spec_witness :
    unsubscribe busW9 EventType.CONTENT_PUBLISHED 7 = busW9
    ∧ busGet (unsubscribe [(EventType.CONTENT_CREATED, [5])]
        EventType.CONTENT_CREATED 5) EventType.CONTENT_CREATED = none :=
  ⟨(unsubscribe_spec busW9 EventType.CONTENT_PUBLISHED 7 (by decide)).1
      (by decide),
    (unsubscribe_spec [(EventType.CONTENT_CREATED, [5])]
      EventType.CONTENT_CREATED 5 (by decide)).2.2 (by rfl)⟩

/-- Claim C1: `publish` invokes exactly the handlers registered under the
event's type, catches and logs each handler's thrown error without
interrupting the others, never rejects, and with zero registered handlers
resolves with no observable effect. -/
theorem publish_spec (run : HandlerFun) (b : Bus) (e : Event) :
    ∃ l, publish run b e = .ok l
      ∧ l.map (fun o => o.handlerId) = busHandlers b e.type
      ∧ (∀ o ∈ l, (run o.handlerId e = .ok o.effects ∧ o.log = none)
          ∨ (∃ err, run o.handlerId e = .error err ∧ o.effects = []
              ∧ o.log.isSome))
      ∧ (busHandlers b e.type = [] → publish run b e = .ok []) := by
  refine ⟨(busHandlers b e.type).map (fun h => handlerOutcome run h e),
    publish_eq_map run b e, ?_, ?_, ?_⟩
  · rw [List.map_map]
    have : ((fun o => o.handlerId) ∘ fun h => handlerOutcome run h e) = id := by
      funext h
      simp only [Function.comp, handlerOutcome]
      cases run h e <;> rfl
    rw [this, List.map_id]
  · intro o ho
    obtain ⟨h, _, rfl⟩ := List.mem_map.mp ho
    cases hr : run h e with
    | ok effs => exact Or.inl (by simp [handlerOutcome, hr])
    | error err => exact Or.inr ⟨err, by simp [handlerOutcome, hr]⟩
  · intro hz
    rw [publish_eq_map, hz]
    rfl

/-- Concrete handler behaviour for C1's witness: handler 0 succeeds with
one side effect, handler 1 throws. -/
def runW : HandlerFun := fun h _ =>
  if h = 0 then .ok ["posted"] else .error "boom"

/-- Concrete bus for C1's witness. -/
def busW : Bus := [(EventType.CONTENT_CREATED, [0, 1])]

/-- Concrete event for C1's witness. -/
def eW : Event :=
  { id := "e1", type := .CONTENT_CREATED, agentId := "a1", timestamp := 0,
    payload := .raw "x",
    metadata := { domain := "crypto", platform := some .TWITTER, priority := 1 } }

theorem publish_spec_witness :
    publish runW busW eW =
      .ok [⟨0, ["posted"], none⟩,
        ⟨1, [], some "Error in event handler for content.created: boom"⟩] := by
  obtain ⟨l, hpub, hids, hcases, hz⟩ := publish_spec runW busW eW
  rfl

/-!
Agent runtime (src/agents/AgentRuntime.ts and the AgentFactory).

The runtime's `agents` map and `platforms` map are embedded as lookup
functions; platform adapters are identified by number and their `post`
method is an oracle `Platform`-independent function.  Promises that the
source awaits become `Except String` values; events "published" by the
runtime are collected in an explicit trace list.
-/

/-- `AgentFactory.createStrategy` (AgentFactory draft): the fixed default
content strategy. -/
def createStrategy : ContentStrategy :=
  { postFrequency := 4,
    topicWeights := [("industry_news", (4 : ℚ) / 10), ("tips", (3 : ℚ) / 10),
      ("engagement", (3 : ℚ) / 10)],
    contentTypes := ["text", "image", "link"],
    replyStrategy := "selective",
    retweetPolicy := "curated",
    mentionHandling := "priority" }

/-- `domain.charAt(0).toUpperCase() + domain.slice(1)` from
`createPersonality`. -/
def capitalizeJs (s : String) : String :=
  match s.data with
  | [] => ""
  | c :: rest => String.mk (c.toUpper :: rest)

/-- `AgentFactory.createPersonality(domain)` (uuid supplied as an
argument). -/
def createPersonality (pid : String) (domain : String) : AgentProfile :=
  { id := pid,
    name := capitalizeJs domain ++ "Expert",
    description := "AI expert in " ++ domain,
    tone := "professional",
    languageStyle := "informative",
    personalityTraits := ["knowledgeable", "helpful", "engaging"] }

/-- `AgentFactory.createAnalytics`: zeroed counters. -/
def createAnalytics : Analytics :=
  { engagementRate := 0, followerGrowth := 0, contentPerformance := [],
    demographics := [], activeHours := List.replicate 24 0,
    topInterests := [] }

/-- `AgentFactory.createAgent(domain, platforms)`; the two uuids
(`agent.id` and the personality id) are supplied as arguments. -/
def createAgent (agentId pid : String) (domain : String)
    (platforms : List Platform) : SocialAgent :=
  { id := agentId, domain := domain,
    personality := createPersonality pid domain,
    platforms := platforms,
    contentStrategy := createStrategy,
    analytics := createAnalytics }

/-- One entry added to the Bull queue by `registerAgent`. -/
structure JobSpec where
  name : String
  agentId : String
  repeatEveryMs : Nat
deriving DecidableEq

/-- The runtime's `agents: Map<string, SocialAgent>` table. -/
abbrev AgentTable := List (String × SocialAgent)

/-- `Map.get` on the agent table. -/
def agentGet : AgentTable → String → Option SocialAgent
  | [], _ => none
  | (k, a) :: rest, id => if k = id then some a else agentGet rest id

/-- `Map.set` on the agent table (append; registered ids are fresh
uuids). -/
def agentSet (tbl : AgentTable) (id : String) (a : SocialAgent) : AgentTable :=
  tbl ++ [(id, a)]

/-- What one call to `AgentRuntime.registerAgent` produces: the updated
agent table, the events published on the bus, the jobs added to the
content queue, and the returned agent. -/
structure RegisterResult where
  agents : AgentTable
  events : List Event
  jobs : List JobSpec
  agent : SocialAgent
deriving DecidableEq

/-- `AgentRuntime.registerAgent(domain, platforms)`: create the agent via
the factory, store it, publish one STRATEGY_UPDATED event (id from
`Math.random`, timestamp from `new Date()`, payload the agent's strategy,
metadata platform `platforms[0]`), and add one recurring hourly
generate-content job.  The uuids, the random event id and the current
time are oracle arguments. -/
def registerAgent (tbl : AgentTable) (agentId pid evId : String) (now : Nat)
    (domain : String) (platforms : List Platform) : RegisterResult :=
  let agent := createAgent agentId pid domain platforms
  let ev : Event :=
    { id := evId, type := .STRATEGY_UPDATED, agentId := agent.id,
      timestamp := now, payload := .strategy agent.contentStrategy,
      metadata := { domain := agent.domain, platform := platforms.head?,
                    priority := 1 } }
  let job : JobSpec :=
    { name := "generate-content", agentId := agent.id,
      repeatEveryMs := 3600000 }
  { agents := agentSet tbl agent.id agent, events := [ev], jobs := [job],
    agent := agent }

/-- Claim C7: `registerAgent` returns an agent with the requested domain
and platform list and publishes exactly one STRATEGY_UPDATED event whose
`agentId` is the returned agent's id, before returning. -/
theorem registerAgent_spec (tbl : AgentTable) (agentId pid evId : String)
    (now : Nat) (domain : String) (platforms : List Platform) :
    (registerAgent tbl agentId pid evId now domain platforms).agent.domain
        = domain
    ∧ (registerAgent tbl agentId pid evId now domain platforms).agent.platforms
        = platforms
    ∧ ∃ ev, (registerAgent tbl agentId pid evId now domain platforms).events
          = [ev]
        ∧ ev.type = .STRATEGY_UPDATED
        ∧ ev.agentId
          = (registerAgent tbl agentId pid evId now domain platforms).agent.id
        ∧ ((registerAgent tbl agentId pid evId now domain platforms).events.filter
            (fun e => e.type = .STRATEGY_UPDATED)).length = 1 := by
  refine ⟨rfl, rfl, ?_⟩
  refine ⟨_, rfl, rfl, rfl, ?_⟩
  rfl

theorem registerAgent_spec_witness :
    (registerAgent [] "agent-1" "pid-1" "ev-1" 0 "crypto" [.TWITTER]).agent.domain
        = "crypto"
    ∧ (registerAgent [] "agent-1" "pid-1" "ev-1" 0 "crypto"
        [.TWITTER]).agent.platforms = [.TWITTER]
    ∧ (registerAgent [] "agent-1" "pid-1" "ev-1" 0 "crypto"
        [.TWITTER]).events.map (fun e => (e.type, e.agentId))
        = [(.STRATEGY_UPDATED, "agent-1")] := by
  obtain ⟨h1, h2, h3⟩ :=
    registerAgent_spec [] "agent-1" "pid-1" "ev-1" 0 "crypto" [.TWITTER]
  exact ⟨h1, h2, rfl⟩

/-- The result of the runtime's CONTENT_CREATED subscriber on one event:
the events it re-published, the error it logged (if any), and the
platform whose adapter `post` it invoked (if it got that far). -/
structure HandlerRunResult where
  published : List Event
  log : Option String
  postCalled : Option Platform
deriving DecidableEq

/-- The `try { ... }` body of the CONTENT_CREATED subscriber
(`setupEventHandlers`): resolve the platform adapter from the event
metadata (missing adapter throws "Platform ... not found"), invoke
`adapter.post(event.payload)`, and on success return the event re-typed
as CONTENT_PUBLISHED.  The first component records which platform's
adapter `post` was invoked. -/
def contentCreatedAttempt (adapters : Platform → Option Nat)
    (postFn : Nat → EventPayload → Except String PostResponse) (e : Event) :
    Option Platform × Except String Event :=
  match e.metadata.platform with
  | none => (none, .error "Platform undefined not found")
  | some p =>
    match adapters p with
    | none => (none, .error ("Platform " ++ p.str ++ " not found"))
    | some a =>
      match postFn a e.payload with
      | .error err => (some p, .error err)
      | .ok _ => (some p, .ok { e with type := .CONTENT_PUBLISHED })

/-- The runtime's CONTENT_CREATED subscriber: a missing agent is logged
and dropped; any failure inside the try body (missing adapter or a
throwing `post`) is caught and logged with no event emitted; a
successful `post` re-publishes the event as CONTENT_PUBLISHED.  The
handler itself never throws. -/
def handleContentCreated (agents : String → Option SocialAgent)
    (adapters : Platform → Option Nat)
    (postFn : Nat → EventPayload → Except String PostResponse) (e : Event) :
    HandlerRunResult :=
  match agents e.agentId with
  | none =>
    { published := [], log := some ("Agent " ++ e.agentId ++ " not found"),
      postCalled := none }
  | some _ =>
    match contentCreatedAttempt adapters postFn e with
    | (pc, .ok ev) => { published := [ev], log := none, postCalled := pc }
    | (pc, .error err) =>
      { published := [], log := some ("Failed to publish content: " ++ err),
        postCalled := pc }

/-!
Content generator, config-based draft (ContentGenerator with a
`ContentGeneratorConfig` constructor; the draft the AgentRuntime
instantiates)

The OpenAI call is an oracle `Except String (Option String)` (transport
error, or a reply whose `message.content` may be null); `JSON.parse` of
the reply is an oracle `String → Option OpenAIResponse` (`none` models a
`SyntaxError`).
-/

/-- `format` of a template in the config-based draft: `maxLength` is
required. -/
structure FormatV1 where
  maxLength : Nat
deriving DecidableEq

/-- `ContentTemplate` of the config-based generator draft (`vars` embeds
the source's `variables` field; that identifier is reserved in Lean). -/
structure TemplateV1 where
  id : String
  name : String
  description : String
  prompt : String
  vars : List String
  platforms : List Platform
  format : FormatV1
deriving DecidableEq

/-- The `templates: Map<string, ContentTemplate>` registry. -/
abbrev TemplateRegistryV1 := List (String × TemplateV1)

/-- `Map.get` on a template registry. -/
def templateGetV1 : TemplateRegistryV1 → String → Option TemplateV1
  | [], _ => none
  | (k, t) :: rest, id => if k = id then some t else templateGetV1 rest id

/-- `getTemplate(id)` of the config-based draft: throws
`Template <id> not found` when absent. -/
def getTemplateV1 (reg : TemplateRegistryV1) (id : String) :
    Except String TemplateV1 :=
  match templateGetV1 reg id with
  | some t => .ok t
  | none => .error ("Template " ++ id ++ " not found")

/-- `performance` object carried in generated-content metadata. -/
structure Performance where
  expectedEngagement : Nat
  confidenceScore : Nat
deriving DecidableEq

/-- The shape `JSON.parse` of the engine reply is cast to
(`OpenAIResponse`): `variations` may be absent (`result.variations || []`)
and `metadata?.performance` may be absent. -/
structure OpenAIResponse where
  content : PostContent
  variations : Option (List String)
  metadataPerformance : Option Performance
deriving DecidableEq

/-- `GeneratedContent.metadata` of the config-based draft. -/
structure GenMetaV1 where
  template : String
  generationParams : List (String × String)
  performance : Performance
deriving DecidableEq

/-- `GeneratedContent` of the config-based draft. -/
structure GeneratedContentV1 where
  content : PostContent
  variations : List String
  metadata : GenMetaV1
deriving DecidableEq

/-- `GenerationParams` of the config-based draft (`vars` embeds the
source's `variables` field). -/
structure GenerationParams where
  templateId : String
  vars : List (String × String)
  platforms : List Platform
deriving DecidableEq

/-- `generateContent(params)` of the config-based draft: resolve the
template (propagating `Template ... not found`), call the engine once, a
null reply throws `No content generated`, a non-JSON reply throws
`Invalid response format` (the `SyntaxError` branch of the catch), a base
text longer than `template.format.maxLength` throws
`Content exceeds maximum length`, missing `metadata.performance` throws
`Missing required metadata`; otherwise the parsed content is returned
unchanged with `variations || []`. -/
def generateContentV1 (reg : TemplateRegistryV1)
    (engineReply : Except String (Option String))
    (jsonParse : String → Option OpenAIResponse) (params : GenerationParams) :
    Except String GeneratedContentV1 :=
  match getTemplateV1 reg params.templateId with
  | .error e => .error e
  | .ok t =>
    match engineReply with
    | .error e => .error e
    | .ok none => .error "No content generated"
    | .ok (some s) =>
      match jsonParse s with
      | none => .error "Invalid response format"
      | some r =>
        if t.format.maxLength < r.content.text.length then
          .error "Content exceeds maximum length"
        else
          match r.metadataPerformance with
          | none => .error "Missing required metadata"
          | some perf =>
            .ok { content := r.content, variations := r.variations.getD [],
                  metadata := { template := t.id,
                                generationParams := params.vars,
                                performance := perf } }

/-- The single template the AgentRuntime constructor registers with its
config-based generator. -/
def runtimeTemplates : TemplateRegistryV1 :=
  [("news-update",
    { id := "news-update", name := "News Update",
      description := "Share latest news",
      prompt := "Create news about \x7btopic\x7d",
      vars := ["topic"], platforms := [.TWITTER],
      format := { maxLength := 280 } })]

/-!
Content generator, apiKey-based draft (the draft whose algorithm the
spec's §4.2 describes: buildPrompt with context sections, per-platform
variations, free-form performance parsing)
-/

/-- `format` of a template in the apiKey-based draft: all fields
optional. -/
structure FormatV2 where
  maxLength : Option Nat := none
  requiresMedia : Option Bool := none
  style : Option String := none
deriving DecidableEq

/-- `ContentTemplate` of the apiKey-based generator draft (`vars` embeds
the source's `variables` field). -/
structure TemplateV2 where
  id : String
  name : String
  description : String
  prompt : String
  vars : List String
  platforms : List Platform
  format : FormatV2
deriving DecidableEq

/-- The apiKey-based draft's template registry. -/
abbrev TemplateRegistryV2 := List (String × TemplateV2)

/-- `Map.get` on the apiKey-based registry. -/
def templateGetV2 : TemplateRegistryV2 → String → Option TemplateV2
  | [], _ => none
  | (k, t) :: rest, id => if k = id then some t else templateGetV2 rest id

/-- `registerTemplate(template)`: `Map.set` (replace if the id exists,
else append). -/
def registerTemplateV2 (reg : TemplateRegistryV2) (t : TemplateV2) :
    TemplateRegistryV2 :=
  match templateGetV2 reg t.id with
  | some _ => reg.map (fun e => if e.1 = t.id then (t.id, t) else e)
  | none => reg ++ [(t.id, t)]

/-- `getTemplate(id)` of the apiKey-based draft: plain `Map.get`, returns
`undefined` (here `none`) when the id is absent — it does not throw. -/
def getTemplateV2 (reg : TemplateRegistryV2) (id : String) :
    Option TemplateV2 :=
  templateGetV2 reg id

/-- `affiliatePromotion` directive of a `ContentRequest`. -/
structure AffiliateDirective where
  enabled : Bool
  kind : Option String := none
  customMessage : Option String := none
deriving DecidableEq

/-- `context.audience` of a `ContentRequest` (demographic weights as
rationals; the `behavior` field is never read by the generator). -/
structure Audience where
  demographics : Option (List (String × ℚ)) := none
  interests : Option (List String) := none
  behavior : Option (List (String × ℚ)) := none
deriving DecidableEq

/-- `ContentContext` of a `ContentRequest`. -/
structure ContentContext where
  recentPosts : Option (List PostContent) := none
  trending : Option (List String) := none
  timeOfDay : Option String := none
  audience : Option Audience := none
deriving DecidableEq

/-- `ContentRequest` of the apiKey-based draft (`vars` embeds the
source's `variables` field). -/
structure ContentRequest where
  domain : String
  template : TemplateV2
  vars : List (String × String)
  platforms : List Platform
  tone : Option String := none
  context : Option ContentContext := none
  affiliatePromotion : Option AffiliateDirective := none
deriving DecidableEq

/-- The `\x7bkey\x7d` placeholder string built by
`processedPrompt.replace(`\x7b${key}\x7d`, value)`. -/
def placeholder (k : String) : String := "\x7b" ++ k ++ "\x7d"

/-- Does the character list start with the pattern? -/
def startsWithL : List Char → List Char → Bool
  | _, [] => true
  | [], _ :: _ => false
  | c :: s, p :: ps => c = p && startsWithL s ps

/-- Does the pattern occur anywhere in the character list?
(`String.prototype.indexOf(pat) >= 0`.) -/
def occursL (pat : List Char) : List Char → Bool
  | [] => pat.isEmpty
  | c :: rest => startsWithL (c :: rest) pat || occursL pat rest

/-- `String.prototype.replace` with a string pattern: replace only the
first (leftmost) occurrence; if the pattern does not occur, return the
string unchanged.  (The `$`-substitution patterns of JS replacement
strings do not arise: replacements are template variable values.) -/
def replaceFirstL (pat repl : List Char) : List Char → List Char
  | [] => []
  | c :: rest =>
    if startsWithL (c :: rest) pat then repl ++ (c :: rest).drop pat.length
    else c :: replaceFirstL pat repl rest

/-- String wrapper of `replaceFirstL`. -/
def jsReplaceFirst (s pat repl : String) : String :=
  String.mk (replaceFirstL pat.data repl.data s.data)

/-- The variable-substitution loop of `buildPrompt`:
`for (const [key, value] of Object.entries(request.variables))
processedPrompt = processedPrompt.replace(`\x7b${key}\x7d`, value)`. -/
def substVars (prompt : String) (vars : List (String × String)) : String :=
  vars.foldl (fun acc kv => jsReplaceFirst acc (placeholder kv.1) kv.2) prompt

/-- The affiliate-promotion section of `buildPrompt`, emitted only when
`affiliatePromotion?.enabled` is truthy. -/
def affiliateParts (req : ContentRequest) : List String :=
  match req.affiliatePromotion with
  | none => []
  | some ap =>
    if ap.enabled then
      ["\nPromotion Guidelines:"]
      ++ (if ap.kind = some "PREMIUM" then
            ["- Naturally mention Telegram Premium benefits when relevant",
             "- Focus on features like increased upload limits, exclusive stickers, and ad-free experience",
             "- Use a subtle, value-focused approach"]
          else
            ["- Mention Fragment username benefits when appropriate",
             "- Highlight the value of having a unique, memorable username",
             "- Keep the promotion natural and contextual"])
      ++ (match ap.customMessage with
          | some m =>
            if m.length ≠ 0 then ["Custom promotion message: " ++ m] else []
          | none => [])
    else []

/-- The context section of `buildPrompt`, emitted only when a `context`
object is supplied; each sub-section is emitted only when its field is
truthy (for arrays: present and non-empty). -/
def contextParts (req : ContentRequest) : List String :=
  match req.context with
  | none => []
  | some ctx =>
    ["\nContext:"]
    ++ (match ctx.recentPosts with
        | some ps =>
          if ps.length ≠ 0 then
            ["Recent posts:\n"
              ++ String.intercalate "\n" (ps.map (fun p => "- " ++ p.text))]
          else []
        | none => [])
    ++ (match ctx.trending with
        | some ts =>
          if ts.length ≠ 0 then
            ["Trending topics: " ++ String.intercalate ", " ts]
          else []
        | none => [])
    ++ (match ctx.timeOfDay with
        | some s => if s.length ≠ 0 then ["Time of day: " ++ s] else []
        | none => [])
    ++ (match ctx.audience with
        | none => []
        | some aud =>
          ["Audience:"]
          ++ (match aud.demographics with
              | some ds =>
                ["Demographics: "
                  ++ String.intercalate ", "
                    (ds.map (fun kv => kv.1 ++ ": " ++ toString kv.2))]
              | none => [])
          ++ (match aud.interests with
              | some ins =>
                if ins.length ≠ 0 then
                  ["Interests: " ++ String.intercalate ", " ins]
                else []
              | none => []))

/-- `buildPrompt(request)`: re-resolve the template by id (throwing
`Template ... not found` when absent), substitute the request variables
into the template prompt, then append the optional affiliate and context
sections and join with newlines. -/
def buildPrompt (reg : TemplateRegistryV2) (req : ContentRequest) :
    Except String String :=
  match templateGetV2 reg req.template.id with
  | none => .error ("Template " ++ req.template.id ++ " not found")
  | some t =>
    .ok (String.intercalate "\n"
      ([substVars t.prompt req.vars] ++ affiliateParts req
        ++ contextParts req))

/-- The generation engine as seen by the apiKey-based draft: one call per
(system message, user message) pair, returning a transport error, a null
`message.content`, or the reply text. -/
abbrev Engine := String → String → Except String (Option String)

/-- The system prompt of `generateBaseContent`. -/
def baseSystemPrompt (req : ContentRequest) : String :=
  "You are an expert social media content creator specializing in "
  ++ req.domain
  ++ ". Create engaging, informative content that matches the specified tone and format."
  ++ (match req.affiliatePromotion with
      | some ap =>
        if ap.enabled then
          "\nIncorporate a natural, non-pushy promotion for "
          ++ (if ap.kind = some "PREMIUM" then "Telegram Premium benefits"
              else "Telegram Fragment usernames")
          ++ " when relevant."
        else ""
      | none => "")

/-- `generateBaseContent(request)`: build the prompt, call the engine
once; a null reply throws `No content generated`; otherwise wrap the
reply text with the request's metadata. -/
def generateBaseContent (reg : TemplateRegistryV2) (engine : Engine)
    (req : ContentRequest) : Except String PostContent :=
  match buildPrompt reg req with
  | .error e => .error e
  | .ok prompt =>
    match engine (baseSystemPrompt req) prompt with
    | .error e => .error e
    | .ok none => .error "No content generated"
    | .ok (some text) =>
      .ok { text := text,
            meta := [("domain", req.domain), ("template", req.template.id)] }

/-- The per-platform user prompt of `generateVariations`. -/
def variationUserPrompt (base : PostContent) (p : Platform) : String :=
  "Adapt the following content for " ++ p.str
  ++ ", maintaining the same message but optimizing for the platform\x27s format and style: \""
  ++ base.text ++ "\""

/-- The per-platform system prompt of `generateVariations`. -/
def variationSystemPrompt (p : Platform) : String :=
  "You are an expert in creating content for " ++ p.str
  ++ ". Adapt the content while maintaining its core message and tone."

/-- `generateVariations(baseContent, platforms)`: one engine call per
platform; a null reply throws `No variation generated`. -/
def generateVariations (engine : Engine) (base : PostContent) :
    List Platform → Except String (List PostContent)
  | [] => .ok []
  | p :: rest =>
    match engine (variationSystemPrompt p) (variationUserPrompt base p) with
    | .error e => .error e
    | .ok none => .error "No variation generated"
    | .ok (some text) =>
      match generateVariations engine base rest with
      | .error e => .error e
      | .ok others =>
        .ok ({ text := text,
               meta := base.meta
                 ++ [("platform", p.str), ("originalContent", base.text)] }
          :: others)

/-- One step of `analysis.match(/\d+/g)`: scan the characters, carrying
the value of the digit run currently being read; a maximal digit run is
emitted when it ends. -/
def digitRunsAux : List Char → Option Nat → List Nat
  | [], none => []
  | [], some n => [n]
  | c :: rest, cur =>
    if c.isDigit then
      digitRunsAux rest (some ((cur.getD 0) * 10 + (c.toNat - 48)))
    else
      match cur with
      | none => digitRunsAux rest none
      | some n => n :: digitRunsAux rest none

/-- `analysis.match(/\d+/g)?.map(Number) || [0, 0]` followed by
`scores[0] || 0` and `scores[1] || 0`: the first two maximal digit runs
of the text, each defaulting to 0 when missing. -/
def parseScores (s : String) : Nat × Nat :=
  let scores := digitRunsAux s.data none
  (scores.headD 0, (scores.drop 1).headD 0)

/-- The system prompt of `analyzePerformance`. -/
def perfSystemPrompt : String :=
  "You are an expert in social media analytics and engagement prediction."

/-- The user prompt of `analyzePerformance`. -/
def perfUserPrompt (content : PostContent) (req : ContentRequest) : String :=
  "Analyze the following social media content and predict its engagement potential: Content: \""
  ++ content.text ++ "\" Domain: " ++ req.domain ++ " Platforms: "
  ++ String.intercalate ", " (req.platforms.map Platform.str)
  ++ " Provide two numbers: 1. Expected engagement score (0-100) 2. Confidence score (0-100)"

/-- `analyzePerformance(content, request)`: one engine call; a null reply
throws `No analysis generated`; otherwise the first two integers of the
reply text become the scores. -/
def analyzePerformance (engine : Engine) (content : PostContent)
    (req : ContentRequest) : Except String Performance :=
  match engine perfSystemPrompt (perfUserPrompt content req) with
  | .error e => .error e
  | .ok none => .error "No analysis generated"
  | .ok (some analysis) =>
    .ok { expectedEngagement := (parseScores analysis).1,
          confidenceScore := (parseScores analysis).2 }

/-- `ContentResponse.metadata` of the apiKey-based draft. -/
structure GenMetaV2 where
  template : String
  model : String
  temperature : ℚ
  domain : String
  platforms : List Platform
  performance : Option Performance
deriving DecidableEq

/-- `ContentResponse` of the apiKey-based draft. -/
structure ContentResponseV2 where
  content : PostContent
  variations : List PostContent
  metadata : GenMetaV2
deriving DecidableEq

/-- `generateContent(request)` of the apiKey-based draft: resolve the
template by `request.template.id` (throwing `Template ... not found`),
then base content, per-platform variations and a performance estimate in
sequence; the surrounding try/catch only logs and rethrows, so every
failure propagates unchanged. -/
def generateContentV2 (reg : TemplateRegistryV2) (engine : Engine)
    (req : ContentRequest) : Except String ContentResponseV2 :=
  match templateGetV2 reg req.template.id with
  | none => .error ("Template " ++ req.template.id ++ " not found")
  | some t =>
    match generateBaseContent reg engine req with
    | .error e => .error e
    | .ok base =>
      match generateVariations engine base req.platforms with
      | .error e => .error e
      | .ok variations =>
        match analyzePerformance engine base req with
        | .error e => .error e
        | .ok perf =>
          .ok { content := base, variations := variations,
                metadata := { template := t.id, model := "gpt-4",
                              temperature := (7 : ℚ) / 10,
                              domain := req.domain,
                              platforms := req.platforms,
                              performance := some perf } }

/-- The `news-update` default template of `initializeTemplates`. -/
def tmplNewsUpdate : TemplateV2 :=
  { id := "news-update", name := "News Update",
    description := "Share latest news or updates in your domain",
    prompt := "Create a news update about \x7btopic\x7d for \x7bplatform\x7d. Include key points and maintain a \x7btone\x7d tone.",
    vars := ["topic", "platform", "tone"],
    platforms := [.TWITTER, .TELEGRAM, .DISCORD],
    format := { maxLength := some 280, requiresMedia := some false,
                style := some "informative" } }

/-- The `insight-share` default template of `initializeTemplates`. -/
def tmplInsightShare : TemplateV2 :=
  { id := "insight-share", name := "Expert Insight",
    description := "Share expert insights or analysis",
    prompt := "Share an expert insight about \x7btopic\x7d that demonstrates deep knowledge while maintaining accessibility.",
    vars := ["topic"],
    platforms := [.TWITTER, .TELEGRAM, .DISCORD],
    format := { maxLength := some 560, requiresMedia := some false,
                style := some "analytical" } }

/-- The `trend-analysis` default template of `initializeTemplates`. -/
def tmplTrendAnalysis : TemplateV2 :=
  { id := "trend-analysis", name := "Trend Analysis",
    description := "Analyze and explain current trends",
    prompt := "Analyze the current trend in \x7btopic\x7d, explaining its significance and potential impact.",
    vars := ["topic"],
    platforms := [.TWITTER, .TELEGRAM, .DISCORD],
    format := { maxLength := some 800, requiresMedia := some true,
                style := some "analytical" } }

/-- `initializeTemplates()`: the registry the apiKey-based generator
holds right after construction. -/
def defaultTemplatesV2 : TemplateRegistryV2 :=
  registerTemplateV2
    (registerTemplateV2 (registerTemplateV2 [] tmplNewsUpdate)
      tmplInsightShare)
    tmplTrendAnalysis

/-!
The recurring generation job (setupContentQueue in AgentRuntime.ts).

The job's call to `contentGenerator.generateContent` is abstracted as a
per-platform oracle `gen` (its outcome depends on the external engine);
`jobGen` below instantiates it with the config-based generator exactly as
the job does.  Events published by the job are collected in a trace.
-/

deriving instance DecidableEq for Except

/-- What one firing of the `generate-content` job produces: the
CONTENT_CREATED events it published, and its resolution or rejection. -/
structure JobOutcome where
  events : List Event
  outcome : Except String Unit
deriving DecidableEq

/-- The per-platform loop of the job body: check the adapter binding
(missing adapter throws `Platform ... not configured`), generate content
(a failure is logged and rethrown, aborting the loop), publish one
CONTENT_CREATED event, continue with the remaining platforms.  `k`
indexes the `Math.random` id supply. -/
def processPlatforms (adapters : Platform → Option Nat)
    (gen : Platform → Except String GeneratedContentV1) (idGen : Nat → String)
    (now : Nat) (agent : SocialAgent) :
    List Platform → Nat → JobOutcome
  | [], _ => { events := [], outcome := .ok () }
  | p :: rest, k =>
    match adapters p with
    | none =>
      { events := [],
        outcome := .error ("Platform " ++ p.str ++ " not configured") }
    | some _ =>
      match gen p with
      | .error err => { events := [], outcome := .error err }
      | .ok content =>
        let ev : Event :=
          { id := idGen k, type := .CONTENT_CREATED, agentId := agent.id,
            timestamp := now, payload := .post content.content,
            metadata := { domain := agent.domain, platform := some p,
                          priority := 1 } }
        let r := processPlatforms adapters gen idGen now agent rest (k + 1)
        { events := ev :: r.events, outcome := r.outcome }

/-- The whole job body: resolve the agent (missing agent throws
`Agent ... not found`), then loop over the agent's platforms. -/
def processJob (agents : String → Option SocialAgent)
    (adapters : Platform → Option Nat)
    (gen : Platform → Except String GeneratedContentV1) (idGen : Nat → String)
    (now : Nat) (agentId : String) : JobOutcome :=
  match agents agentId with
  | none =>
    { events := [], outcome := .error ("Agent " ++ agentId ++ " not found") }
  | some agent => processPlatforms adapters gen idGen now agent
      agent.platforms 0

/-- The generation call the job actually makes: the config-based
generator, template `news-update`, variables derived from the agent's
domain and the platform. -/
def jobGen (engineReply : Platform → Except String (Option String))
    (jsonParse : String → Option OpenAIResponse) (agent : SocialAgent)
    (p : Platform) : Except String GeneratedContentV1 :=
  generateContentV1 runtimeTemplates (engineReply p) jsonParse
    { templateId := "news-update",
      vars := [("domain", agent.domain), ("platform", p.str)],
      platforms := [p] }

/-- The platforms whose adapter `post` the runtime's CONTENT_CREATED
subscriber invokes when the given events are delivered to it. -/
def postsTriggered (agents : String → Option SocialAgent)
    (adapters : Platform → Option Nat)
    (postFn : Nat → EventPayload → Except String PostResponse) :
    List Event → List Platform
  | [] => []
  | e :: rest =>
    match (handleContentCreated agents adapters postFn e).postCalled with
    | some p => p :: postsTriggered agents adapters postFn rest
    | none => postsTriggered agents adapters postFn rest

/-- Claim C3: the runtime's CONTENT_CREATED subscriber publishes exactly
one CONTENT_PUBLISHED event when the agent is found, an adapter is bound
for the event's platform metadata and its `post` succeeds; when the agent
is missing, the adapter is missing or `post` throws, it logs the failure
and emits nothing — and, being total, no exception escapes it. -/
theorem contentCreated_handler_spec (agents : String → Option SocialAgent)
    (adapters : Platform → Option Nat)
    (postFn : Nat → EventPayload → Except String PostResponse) (e : Event) :
    (agents e.agentId = none →
      handleContentCreated agents adapters postFn e
        = { published := [],
            log := some ("Agent " ++ e.agentId ++ " not found"),
            postCalled := none })
    ∧ (∀ ag p a resp, agents e.agentId = some ag →
        e.metadata.platform = some p → adapters p = some a →
        postFn a e.payload = .ok resp →
        handleContentCreated agents adapters postFn e
          = { published := [{ e with type := .CONTENT_PUBLISHED }],
              log := none, postCalled := some p })
    ∧ (∀ ag, agents e.agentId = some ag →
        e.metadata.platform.bind adapters = none →
        (handleContentCreated agents adapters postFn e).published = []
        ∧ ((handleContentCreated agents adapters postFn e).log).isSome)
    ∧ (∀ ag p a err, agents e.agentId = some ag →
        e.metadata.platform = some p → adapters p = some a →
        postFn a e.payload = .error err →
        handleContentCreated agents adapters postFn e
          = { published := [],
              log := some ("Failed to publish content: " ++ err),
              postCalled := some p })
    ∧ (∀ ev ∈ (handleContentCreated agents adapters postFn e).published,
        ev.type = .CONTENT_PUBLISHED) := by
  refine ⟨?_, ?_, ?_, ?_, ?_⟩
  · intro hag
    simp [handleContentCreated, hag]
  · intro ag p a resp hag hp ha hpost
    simp [handleContentCreated, hag, contentCreatedAttempt, hp, ha, hpost]
  · intro ag hag hnone
    cases hp : e.metadata.platform with
    | none => simp [handleContentCreated, hag, contentCreatedAttempt, hp]
    | some p =>
      rw [hp] at hnone
      simp only [Option.bind] at hnone
      simp [handleContentCreated, hag, contentCreatedAttempt, hp, hnone]
  · intro ag p a err hag hp ha hpost
    simp [handleContentCreated, hag, contentCreatedAttempt, hp, ha, hpost]
  · intro ev hev
    cases hag : agents e.agentId with
    | none => simp [handleContentCreated, hag] at hev
    | some ag =>
      cases hp : e.metadata.platform with
      | none =>
        simp [handleContentCreated, contentCreatedAttempt, hag, hp] at hev
      | some p =>
        cases ha : adapters p with
        | none =>
          simp [handleContentCreated, contentCreatedAttempt, hag, hp, ha]
            at hev
        | some a =>
          cases hpost : postFn a e.payload with
          | error err =>
            simp [handleContentCreated, contentCreatedAttempt, hag, hp, ha,
              hpost] at hev
          | ok resp =>
            simp [handleContentCreated, contentCreatedAttempt, hag, hp, ha,
              hpost] at hev
            rw [hev]

/-- Concrete agent for the runtime witnesses. -/
def agentW : SocialAgent := createAgent "a1" "p1" "crypto" [.TWITTER]

/-- Concrete agent table for the runtime witnesses. -/
def agentsW : String → Option SocialAgent := fun s =>
  if s = "a1" then some agentW else none

/-- Concrete adapter binding (TWITTER only) for the runtime witnesses. -/
def adaptersW : Platform → Option Nat := fun p =>
  if p = .TWITTER then some 0 else none

/-- A `post` oracle that always succeeds. -/
def postOkW : Nat → EventPayload → Except String PostResponse := fun _ _ =>
  .ok { id := "post-1", platform := .TWITTER, timestamp := 5 }

/-- Concrete CONTENT_CREATED event for the runtime witnesses. -/
def eventCW : Event :=
  { id := "ev-c", type := .CONTENT_CREATED, agentId := "a1", timestamp := 3,
    payload := .post { text := "hello" },
    metadata := { domain := "crypto", platform := some .TWITTER,
                  priority := 1 } }

theorem contentCreated_handler_spec_witness :
    handleContentCreated agentsW adaptersW postOkW eventCW
      = { published := [{ eventCW with type := .CONTENT_PUBLISHED }],
          log := none, postCalled := some .TWITTER } :=
  (contentCreated_handler_spec agentsW adaptersW postOkW eventCW).2.1 agentW
    .TWITTER 0 { id := "post-1", platform := .TWITTER, timestamp := 5 }
    rfl rfl rfl rfl

/-- Claim C10: on the success path, the CONTENT_PUBLISHED event the
subscriber re-publishes is the received event with every field preserved
(id, agentId, timestamp, payload, metadata) and only `type` changed —
in particular it reuses the original event's id. -/
theorem contentPublished_preserves_event (agents : String → Option SocialAgent)
    (adapters : Platform → Option Nat)
    (postFn : Nat → EventPayload → Except String PostResponse) (e : Event)
    (ag : SocialAgent) (p : Platform) (a : Nat) (resp : PostResponse)
    (hag : agents e.agentId = some ag) (hp : e.metadata.platform = some p)
    (ha : adapters p = some a) (hpost : postFn a e.payload = .ok resp) :
    ∃ ev, (handleContentCreated agents adapters postFn e).published = [ev]
      ∧ ev.type = .CONTENT_PUBLISHED ∧ ev.id = e.id
      ∧ ev.agentId = e.agentId ∧ ev.timestamp = e.timestamp
      ∧ ev.payload = e.payload ∧ ev.metadata = e.metadata := by
  refine ⟨{ e with type := .CONTENT_PUBLISHED }, ?_, rfl, rfl, rfl, rfl, rfl, rfl⟩
  simp [handleContentCreated, hag, contentCreatedAttempt, hp, ha, hpost]

theorem contentPublished_preserves_event_witness :
    ∃ ev, (handleContentCreated agentsW adaptersW postOkW eventCW).published
        = [ev]
      ∧ ev.type = .CONTENT_PUBLISHED ∧ ev.id = eventCW.id
      ∧ ev.agentId = eventCW.agentId ∧ ev.timestamp = eventCW.timestamp
      ∧ ev.payload = eventCW.payload ∧ ev.metadata = eventCW.metadata :=
  contentPublished_preserves_event agentsW adaptersW postOkW eventCW agentW
    .TWITTER 0 { id := "post-1", platform := .TWITTER, timestamp := 5 }
    rfl rfl rfl rfl

theorem postCalled_eq_platform (agents : String → Option SocialAgent)
    (adapters : Platform → Option Nat)
    (postFn : Nat → EventPayload → Except String PostResponse) (e : Event)
    (q : Platform)
    (h : (handleContentCreated agents adapters postFn e).postCalled = some q) :
    e.metadata.platform = some q := by
  cases hag : agents e.agentId with
  | none => simp [handleContentCreated, hag] at h
  | some ag =>
    cases hp : e.metadata.platform with
    | none => simp [handleContentCreated, contentCreatedAttempt, hag, hp] at h
    | some p =>
      cases ha : adapters p with
      | none =>
        simp [handleContentCreated, contentCreatedAttempt, hag, hp, ha] at h
      | some a =>
        cases hpost : postFn a e.payload with
        | error err =>
          simp [handleContentCreated, contentCreatedAttempt, hag, hp, ha,
            hpost] at h
          rw [h]
        | ok resp =>
          simp [handleContentCreated, contentCreatedAttempt, hag, hp, ha,
            hpost] at h
          rw [h]

theorem postsTriggered_sub (agentsH : String → Option SocialAgent)
    (adapters : Platform → Option Nat)
    (postFn : Nat → EventPayload → Except String PostResponse)
    (evts : List Event) (q : Platform)
    (hq : q ∈ postsTriggered agentsH adapters postFn evts) :
    ∃ e ∈ evts, e.metadata.platform = some q := by
  induction evts with
  | nil => cases hq
  | cons e evts ihe =>
    simp only [postsTriggered] at hq
    cases hpc : (handleContentCreated agentsH adapters postFn e).postCalled with
    | none =>
      rw [hpc] at hq
      obtain ⟨e2, he2, hm2⟩ := ihe hq
      exact ⟨e2, List.mem_cons_of_mem e he2, hm2⟩
    | some q2 =>
      rw [hpc] at hq
      rcases List.mem_cons.mp hq with heq | hmem2
      · subst heq
        exact ⟨e, List.mem_cons_self e evts,
          postCalled_eq_platform agentsH adapters postFn e q hpc⟩
      · obtain ⟨e2, he2, hm2⟩ := ihe hmem2
        exact ⟨e2, List.mem_cons_of_mem e he2, hm2⟩

theorem processPlatforms_abort (adapters : Platform → Option Nat)
    (gen : Platform → Except String GeneratedContentV1) (idGen : Nat → String)
    (now : Nat) (agent : SocialAgent) (pre : List Platform) (p : Platform)
    (rest : List Platform) (err : String) (k : Nat)
    (hpre : ∀ q ∈ pre, (adapters q).isSome ∧ ∃ c, gen q = .ok c)
    (hpa : (adapters p).isSome) (hgen : gen p = .error err) :
    (processPlatforms adapters gen idGen now agent (pre ++ p :: rest) k).outcome
        = .error err
    ∧ (processPlatforms adapters gen idGen now agent
        (pre ++ p :: rest) k).events.length = pre.length
    ∧ (∀ e ∈ (processPlatforms adapters gen idGen now agent
        (pre ++ p :: rest) k).events, ∃ q ∈ pre, e.metadata.platform = some q) := by
  induction pre generalizing k with
  | nil =>
    obtain ⟨a, ha⟩ := Option.isSome_iff_exists.mp hpa
    simp [processPlatforms, ha, hgen]
  | cons q pre ih =>
    obtain ⟨hqa, c, hqc⟩ := hpre q (List.mem_cons_self q pre)
    obtain ⟨a, ha⟩ := Option.isSome_iff_exists.mp hqa
    have hpre2 : ∀ r ∈ pre, (adapters r).isSome ∧ ∃ c, gen r = .ok c :=
      fun r hr => hpre r (List.mem_cons_of_mem q hr)
    obtain ⟨ih1, ih2, ih3⟩ := ih (k + 1) hpre2
    refine ⟨?_, ?_, ?_⟩
    · simpa [processPlatforms, ha, hqc] using ih1
    · simpa [processPlatforms, ha, hqc] using ih2
    · intro e he
      simp only [List.cons_append, processPlatforms, ha, hqc] at he
      rcases List.mem_cons.mp he with heq | hmem
      · exact ⟨q, List.mem_cons_self q pre, by rw [heq]⟩
      · obtain ⟨r, hr, hrm⟩ := ih3 e hmem
        exact ⟨r, List.mem_cons_of_mem q hr, hrm⟩

/-- Claim C2: when one firing of the generation job hits a generation
failure for some platform, the job rejects with that error; no
CONTENT_CREATED event is published for any later platform in the list, so
no later platform's adapter `post` is ever invoked by the CONTENT_CREATED
subscriber — in particular, for an agent bound to [TWITTER, DISCORD]
whose TWITTER generation fails, no event at all is published and the
Discord adapter is never reached. -/
theorem job_abort_spec (agents0 : String → Option SocialAgent)
    (adapters : Platform → Option Nat)
    (gen : Platform → Except String GeneratedContentV1) (idGen : Nat → String)
    (now : Nat) (aId : String) (agent : SocialAgent) (pre : List Platform)
    (p : Platform) (rest : List Platform) (err : String)
    (hag : agents0 aId = some agent)
    (hplat : agent.platforms = pre ++ p :: rest)
    (hpre : ∀ q ∈ pre, (adapters q).isSome ∧ ∃ c, gen q = .ok c)
    (hpa : (adapters p).isSome) (hgen : gen p = .error err) :
    (processJob agents0 adapters gen idGen now aId).outcome = .error err
    ∧ (processJob agents0 adapters gen idGen now aId).events.length
        = pre.length
    ∧ (∀ e ∈ (processJob agents0 adapters gen idGen now aId).events,
        ∃ q ∈ pre, e.metadata.platform = some q)
    ∧ (∀ agentsH postFn q,
        q ∈ postsTriggered agentsH adapters postFn
          (processJob agents0 adapters gen idGen now aId).events → q ∈ pre) := by
  have hred : processJob agents0 adapters gen idGen now aId
      = processPlatforms adapters gen idGen now agent (pre ++ p :: rest) 0 := by
    simp [processJob, hag, hplat]
  obtain ⟨h1, h2, h3⟩ := processPlatforms_abort adapters gen idGen now agent
    pre p rest err 0 hpre hpa hgen
  rw [hred]
  refine ⟨h1, h2, h3, ?_⟩
  intro agentsH postFn q hq
  obtain ⟨e, he, hm⟩ := postsTriggered_sub agentsH adapters postFn _ q hq
  obtain ⟨r, hr, hrm⟩ := h3 e he
  rw [hm] at hrm
  obtain rfl : q = r := by injection hrm
  exact hr

/-- Concrete agent bound to [TWITTER, DISCORD] for C2's witness. -/
def agent2W : SocialAgent := createAgent "a2" "p2" "crypto" [.TWITTER, .DISCORD]

/-- Concrete agent table for C2's witness. -/
def agents2W : String → Option SocialAgent := fun s =>
  if s = "a2" then some agent2W else none

/-- Adapters bound for every platform (C2's witness). -/
def adaptersAllW : Platform → Option Nat := fun _ => some 0

/-- A generation oracle that fails for TWITTER (C2's witness). -/
def genFailW : Platform → Except String GeneratedContentV1 := fun p =>
  match p with
  | .TWITTER => .error "generation failed"
  | _ => .ok { content := { text := "t" }, variations := [],
               metadata := { template := "news-update",
                             generationParams := [],
                             performance := { expectedEngagement := 0,
                                              confidenceScore := 0 } } }

theorem job_abort_spec_witness :
    (processJob agents2W adaptersAllW genFailW (fun _ => "id") 0 "a2").outcome
        = .error "generation failed"
    ∧ (processJob agents2W adaptersAllW genFailW (fun _ => "id") 0 "a2").events
        = []
    ∧ postsTriggered agents2W adaptersAllW postOkW
        (processJob agents2W adaptersAllW genFailW (fun _ => "id") 0 "a2").events
        = [] := by
  have h := job_abort_spec agents2W adaptersAllW genFailW (fun _ => "id") 0
    "a2" agent2W [] .TWITTER [.DISCORD] "generation failed" rfl rfl
    (by intro q hq; cases hq) rfl rfl
  exact ⟨h.1, rfl, rfl⟩

/-- A template with `maxLength` 5 used in the C4 counterexample and
witness. -/
def cexTemplateV1 : TemplateV1 :=
  { id := "t", name := "T", description := "", prompt := "p", vars := [],
    platforms := [.TWITTER], format := { maxLength := 5 } }

/-- Registry holding only `cexTemplateV1`. -/
def cexRegV1 : TemplateRegistryV1 := [("t", cexTemplateV1)]

/-- Request parameters used in the C4 counterexample and witness. -/
def cexParams : GenerationParams :=
  { templateId := "t", vars := [], platforms := [.TWITTER] }

/-- A parsed engine reply whose base text fits the limit but whose
variation is 10 characters long, twice the template's `maxLength`. -/
def cexResponse : OpenAIResponse :=
  { content := { text := "ok" }, variations := some ["0123456789"],
    metadataPerformance := some { expectedEngagement := 50,
                                  confidenceScore := 50 } }

/-- Counterexample to claim C4's variation bound: `generateContent` of
the config-based draft validates only the base `content.text` against
`template.format.maxLength`; a parsed reply whose variation is longer
than `maxLength` passes validation and is returned with that oversized
variation intact, so the invariant
`variations[i].text.length <= template.format.maxLength` does not hold of
successful results. -/
theorem generateContentV1_variation_overflow :
    generateContentV1 cexRegV1 (.ok (some "raw")) (fun _ => some cexResponse)
        cexParams
      = .ok { content := { text := "ok" }, variations := ["0123456789"],
              metadata := { template := "t", generationParams := [],
                            performance := { expectedEngagement := 50,
                                             confidenceScore := 50 } } }
    ∧ cexTemplateV1.format.maxLength < ("0123456789" : String).length :=
  ⟨rfl, by decide⟩

/-- Claim C4 (amended): the config-based `generateContent` validates the
base content text against `template.format.maxLength` — a parsed result
whose text fits is returned unchanged, and one whose text exceeds the
limit (in particular of length maxLength + 1) fails with
`Content exceeds maximum length` rather than being truncated.  The bound
is not checked for the entries of `variations` (see the counterexample). -/
theorem generateContentV1_length_validation (reg : TemplateRegistryV1)
    (s : String) (jsonParse : String → Option OpenAIResponse)
    (params : GenerationParams) (t : TemplateV1) (r : OpenAIResponse)
    (perf : Performance)
    (ht : templateGetV1 reg params.templateId = some t)
    (hp : jsonParse s = some r)
    (hperf : r.metadataPerformance = some perf) :
    (r.content.text.length ≤ t.format.maxLength →
      generateContentV1 reg (.ok (some s)) jsonParse params
        = .ok { content := r.content, variations := r.variations.getD [],
                metadata := { template := t.id,
                              generationParams := params.vars,
                              performance := perf } })
    ∧ (t.format.maxLength < r.content.text.length →
      generateContentV1 reg (.ok (some s)) jsonParse params
        = .error "Content exceeds maximum length") := by
  constructor
  · intro hle
    simp [generateContentV1, getTemplateV1, ht, hp, hperf,
      Nat.not_lt.mpr hle]
  · intro hlt
    simp [generateContentV1, getTemplateV1, ht, hp, hlt]

/-- A parsed engine reply whose base text has length maxLength + 1. -/
def cexResponseLong : OpenAIResponse :=
  { content := { text := "012345" }, variations := none,
    metadataPerformance := some { expectedEngagement := 50,
                                  confidenceScore := 50 } }

theorem generateContentV1_length_validation_witness :
    generateContentV1 cexRegV1 (.ok (some "raw")) (fun _ => some cexResponse)
        cexParams
      = .ok { content := { text := "ok" }, variations := ["0123456789"],
              metadata := { template := "t", generationParams := [],
                            performance := { expectedEngagement := 50,
                                             confidenceScore := 50 } } }
    ∧ generateContentV1 cexRegV1 (.ok (some "raw"))
        (fun _ => some cexResponseLong) cexParams
      = .error "Content exceeds maximum length" :=
  ⟨(generateContentV1_length_validation cexRegV1 "raw"
      (fun _ => some cexResponse) cexParams cexTemplateV1 cexResponse
      { expectedEngagement := 50, confidenceScore := 50 } rfl rfl rfl).1
      (by decide),
    (generateContentV1_length_validation cexRegV1 "raw"
      (fun _ => some cexResponseLong) cexParams cexTemplateV1 cexResponseLong
      { expectedEngagement := 50, confidenceScore := 50 } rfl rfl rfl).2
      (by decide)⟩

/-- Counterexample to claim C8: the apiKey-based draft's public
`getTemplate` does not fail with `TemplateNotFound` for an absent id — it
returns `undefined` (`none`) without any error, as exercised on the
default registry. -/
theorem getTemplateV2_absent_returns_none :
    getTemplateV2 defaultTemplatesV2 "missing-template" = none
    ∧ (getTemplateV2 defaultTemplatesV2 "news-update").isSome := ⟨rfl, rfl⟩

/-- Claim C8 (amended): for an id absent from the registry,
`generateContent` fails with `Template <id> not found` in both generator
drafts, and the config-based draft's `getTemplate` throws that error; the
apiKey-based draft's `getTemplate`, however, returns `undefined` (no
error). -/
theorem template_lookup_not_found_spec (reg1 : TemplateRegistryV1)
    (reg2 : TemplateRegistryV2) (engine : Engine) (id : String)
    (engineReply : Except String (Option String))
    (jsonParse : String → Option OpenAIResponse) (params : GenerationParams)
    (req : ContentRequest)
    (h1 : templateGetV1 reg1 id = none)
    (h2 : templateGetV1 reg1 params.templateId = none)
    (h3 : templateGetV2 reg2 req.template.id = none) :
    getTemplateV1 reg1 id = .error ("Template " ++ id ++ " not found")
    ∧ generateContentV1 reg1 engineReply jsonParse params
      = .error ("Template " ++ params.templateId ++ " not found")
    ∧ generateContentV2 reg2 engine req
      = .error ("Template " ++ req.template.id ++ " not found")
    ∧ getTemplateV2 reg2 req.template.id = none := by
  refine ⟨?_, ?_, ?_, h3⟩
  · simp [getTemplateV1, h1]
  · simp [generateContentV1, getTemplateV1, h2]
  · simp [generateContentV2, h3]

/-- A request whose template id is absent from the default registry
(C8's witness). -/
def cexReqMissing : ContentRequest :=
  { domain := "test-domain", template := { tmplNewsUpdate with id := "invalid-template" },
    vars := [], platforms := [.TWITTER] }

theorem template_lookup_not_found_spec_witness :
    getTemplateV1 cexRegV1 "zzz" = .error "Template zzz not found"
    ∧ generateContentV1 cexRegV1 (.ok (some "raw")) (fun _ => none)
        { templateId := "zzz", vars := [], platforms := [] }
      = .error "Template zzz not found"
    ∧ generateContentV2 defaultTemplatesV2 (fun _ _ => .ok (some "x"))
        cexReqMissing
      = .error "Template invalid-template not found"
    ∧ getTemplateV2 defaultTemplatesV2 "invalid-template" = none := by
  have h := template_lookup_not_found_spec cexRegV1 defaultTemplatesV2
    (fun _ _ => .ok (some "x")) "zzz" (.ok (some "raw")) (fun _ => none)
    { templateId := "zzz", vars := [], platforms := [] } cexReqMissing
    rfl rfl rfl
  exact h

theorem strData_append (s t : String) : (s ++ t).data = s.data ++ t.data :=
  rfl

theorem startsWithL_iff (s p : List Char) :
    startsWithL s p = true ↔ ∃ t, s = p ++ t := by
  induction p generalizing s with
  | nil => simp [startsWithL]
  | cons ph pt ih =>
    cases s with
    | nil => simp [startsWithL]
    | cons c cs => simp [startsWithL, ih, List.cons.injEq, exists_and_left]

theorem replaceFirstL_not_occurs (pat repl s : List Char)
    (h : occursL pat s = false) : replaceFirstL pat repl s = s := by
  induction s with
  | nil => rfl
  | cons c cs ih =>
    simp only [occursL, Bool.or_eq_false_iff] at h
    simp [replaceFirstL, h.1, ih h.2]

theorem replaceFirstL_occurs (pat repl s : List Char) (hne : pat ≠ [])
    (h : occursL pat s = true) :
    ∃ a b, s = a ++ pat ++ b
      ∧ replaceFirstL pat repl s = a ++ repl ++ b
      ∧ occursL pat a = false := by
  induction s with
  | nil =>
    simp [occursL, List.isEmpty_iff] at h
    exact absurd h hne
  | cons c cs ih =>
    by_cases hsw : startsWithL (c :: cs) pat = true
    · obtain ⟨t, ht⟩ := (startsWithL_iff (c :: cs) pat).mp hsw
      refine ⟨[], t, by simpa using ht, ?_, ?_⟩
      · simp only [replaceFirstL, hsw, if_true]
        rw [ht, List.drop_left]
        simp
      · cases pat with
        | nil => exact absurd rfl hne
        | cons p0 ps => simp [occursL]
    · have hocc : occursL pat cs = true := by
        have h2 := h
        simp only [occursL, Bool.or_eq_true] at h2
        rcases h2 with h2 | h2
        · exact absurd h2 hsw
        · exact h2
      obtain ⟨a, b, h1, h2, h3⟩ := ih hocc
      refine ⟨c :: a, b, by simp [h1], ?_, ?_⟩
      · simp [replaceFirstL, hsw, h2]
      · have hswa : startsWithL (c :: a) pat = false := by
          by_contra hcon
          rw [Bool.not_eq_false] at hcon
          obtain ⟨t, ht⟩ := (startsWithL_iff _ _).mp hcon
          have hfull : startsWithL (c :: cs) pat = true := by
            apply (startsWithL_iff _ _).mpr
            refine ⟨t ++ pat ++ b, ?_⟩
            have hcs : c :: cs = (c :: a) ++ (pat ++ b) := by simp [h1]
            rw [hcs, ht]
            simp
          exact hsw hfull
        simp [occursL, hswa, h3]

theorem substVars_no_match (prompt : String) (vs : List (String × String))
    (h : ∀ kv ∈ vs, occursL (placeholder kv.1).data prompt.data = false) :
    substVars prompt vs = prompt := by
  induction vs with
  | nil => rfl
  | cons kv rest ih =>
    have hstep : jsReplaceFirst prompt (placeholder kv.1) kv.2 = prompt := by
      unfold jsReplaceFirst
      rw [replaceFirstL_not_occurs _ _ _ (h kv (List.mem_cons_self kv rest))]
    calc substVars prompt (kv :: rest)
        = substVars (jsReplaceFirst prompt (placeholder kv.1) kv.2) rest := rfl
      _ = substVars prompt rest := by rw [hstep]
      _ = prompt := ih (fun kv2 hm => h kv2 (List.mem_cons_of_mem kv hm))

theorem intercalate_single (sep x : String) :
    String.intercalate sep [x] = x := by
  simp [String.intercalate, String.intercalate.go]

/-- A template whose prompt repeats the same placeholder twice (C5). -/
def cexPromptTemplate : TemplateV2 :=
  { id := "dup", name := "Dup", description := "",
    prompt := "Say \x7btopic\x7d and \x7btopic\x7d", vars := ["topic"],
    platforms := [], format := {} }

/-- A request substituting `topic := x` into `cexPromptTemplate` (C5). -/
def cexReq : ContentRequest :=
  { domain := "d", template := cexPromptTemplate, vars := [("topic", "x")],
    platforms := [] }

/-- Counterexample to claim C5: `String.prototype.replace` with a string
pattern replaces only the first occurrence, so prompt building leaves the
second occurrence of the same placeholder verbatim rather than
substituting every occurrence. -/
theorem buildPrompt_replaces_only_first :
    buildPrompt [("dup", cexPromptTemplate)] cexReq
      = .ok "Say x and \x7btopic\x7d"
    ∧ ("Say x and \x7btopic\x7d" : String) ≠ "Say x and x" :=
  ⟨rfl, by decide⟩

/-- Claim C5 (amended): prompt building substitutes, for each key of the
variables map in iteration order, only the FIRST occurrence of the
placeholder \x7bkey\x7d (later occurrences of the same key are left
verbatim), and any placeholder with no corresponding variable is left
verbatim in the output without raising an error. -/
theorem buildPrompt_substitution_spec (reg : TemplateRegistryV2)
    (req : ContentRequest) (t : TemplateV2)
    (ht : templateGetV2 reg req.template.id = some t)
    (hnoaff : req.affiliatePromotion = none) (hnoctx : req.context = none) :
    buildPrompt reg req = .ok (substVars t.prompt req.vars)
    ∧ (∀ (s k v : String), occursL (placeholder k).data s.data = false →
        jsReplaceFirst s (placeholder k) v = s)
    ∧ (∀ (s k v : String), occursL (placeholder k).data s.data = true →
        ∃ a b, s.data = a ++ (placeholder k).data ++ b
          ∧ (jsReplaceFirst s (placeholder k) v).data = a ++ v.data ++ b
          ∧ occursL (placeholder k).data a = false)
    ∧ (∀ (prompt : String) (vs : List (String × String)),
        (∀ kv ∈ vs, occursL (placeholder kv.1).data prompt.data = false) →
        substVars prompt vs = prompt) := by
  refine ⟨?_, ?_, ?_, fun prompt vs h => substVars_no_match prompt vs h⟩
  · simp [buildPrompt, ht, affiliateParts, hnoaff, contextParts, hnoctx,
      intercalate_single]
  · intro s k v h
    unfold jsReplaceFirst
    rw [replaceFirstL_not_occurs _ _ _ h]
  · intro s k v h
    have hdata : (placeholder k).data = '\x7b' :: (k.data ++ ['\x7d']) := by
      simp [placeholder, strData_append]
    have hne : (placeholder k).data ≠ [] := by
      rw [hdata]
      exact List.cons_ne_nil _ _
    obtain ⟨a, b, h1, h2, h3⟩ :=
      replaceFirstL_occurs (placeholder k).data v.data s.data hne h
    exact ⟨a, b, h1, h2, h3⟩

theorem buildPrompt_substitution_spec_witness :
    buildPrompt [("dup", cexPromptTemplate)] cexReq
      = .ok (substVars cexPromptTemplate.prompt cexReq.vars)
    ∧ jsReplaceFirst "no placeholders here" (placeholder "topic") "v"
      = "no placeholders here" := by
  have h := buildPrompt_substitution_spec [("dup", cexPromptTemplate)] cexReq
    cexPromptTemplate rfl rfl rfl
  exact ⟨h.1, h.2.1 "no placeholders here" "topic" "v" (by decide)⟩

/-- Numeric value of a digit character. -/
def digitVal (c : Char) : Nat := c.toNat - 48

/-- The value of reading the digit string `d` after accumulator `a`. -/
def runVal (a : Nat) (d : List Char) : Nat :=
  d.foldl (fun n c => n * 10 + digitVal c) a

theorem digitRunsAux_skip (nd rest : List Char)
    (h : ∀ c ∈ nd, c.isDigit = false) :
    digitRunsAux (nd ++ rest) none = digitRunsAux rest none := by
  induction nd with
  | nil => rfl
  | cons c nds ih =>
    have hc : c.isDigit = false := h c (List.mem_cons_self c nds)
    simp only [List.cons_append, digitRunsAux, hc]
    exact ih (fun c2 h2 => h c2 (List.mem_cons_of_mem c h2))

theorem digitRunsAux_acc (d rest : List Char) (a : Nat)
    (h : ∀ c ∈ d, c.isDigit = true) :
    digitRunsAux (d ++ rest) (some a) = digitRunsAux rest (some (runVal a d)) := by
  induction d generalizing a with
  | nil => simp [runVal]
  | cons c ds ih =>
    have hc : c.isDigit = true := h c (List.mem_cons_self c ds)
    have hstep : digitRunsAux ((c :: ds) ++ rest) (some a)
        = digitRunsAux (ds ++ rest) (some (a * 10 + digitVal c)) := by
      simp [digitRunsAux, hc, digitVal]
    rw [hstep,
      ih (a * 10 + digitVal c) (fun c2 h2 => h c2 (List.mem_cons_of_mem c h2))]
    rfl

theorem digitRunsAux_start (d rest : List Char) (hne : d ≠ [])
    (h : ∀ c ∈ d, c.isDigit = true) :
    digitRunsAux (d ++ rest) none = digitRunsAux rest (some (runVal 0 d)) := by
  cases d with
  | nil => exact absurd rfl hne
  | cons c ds =>
    have hc : c.isDigit = true := h c (List.mem_cons_self c ds)
    have hstep : digitRunsAux ((c :: ds) ++ rest) none
        = digitRunsAux (ds ++ rest) (some (digitVal c)) := by
      simp [digitRunsAux, hc, digitVal]
    have hrv : runVal 0 (c :: ds) = runVal (digitVal c) ds := by
      simp [runVal, digitVal]
    rw [hstep, digitRunsAux_acc ds rest (digitVal c)
      (fun c2 h2 => h c2 (List.mem_cons_of_mem c h2)), hrv]

theorem digitRunsAux_none_nil (l : List Char)
    (h : ∀ c ∈ l, c.isDigit = false) : digitRunsAux l none = [] := by
  induction l with
  | nil => rfl
  | cons c ls ih =>
    have hc : c.isDigit = false := h c (List.mem_cons_self c ls)
    simp only [digitRunsAux, hc]
    exact ih (fun c2 h2 => h c2 (List.mem_cons_of_mem c h2))

theorem digitRunsAux_fin (post : List Char) (v : Nat)
    (h : ∀ c ∈ post, c.isDigit = false) :
    digitRunsAux post (some v) = [v] := by
  cases post with
  | nil => rfl
  | cons c r =>
    have hc : c.isDigit = false := h c (List.mem_cons_self c r)
    have hstep : digitRunsAux (c :: r) (some v)
        = v :: digitRunsAux r none := by
      simp [digitRunsAux, hc]
    rw [hstep,
      digitRunsAux_none_nil r (fun c2 h2 => h c2 (List.mem_cons_of_mem c h2))]

theorem digitRunsAux_sep (mid rest : List Char) (v : Nat) (hne : mid ≠ [])
    (h : ∀ c ∈ mid, c.isDigit = false) :
    digitRunsAux (mid ++ rest) (some v) = v :: digitRunsAux rest none := by
  cases mid with
  | nil => exact absurd rfl hne
  | cons c mids =>
    have hc : c.isDigit = false := h c (List.mem_cons_self c mids)
    have hstep : digitRunsAux ((c :: mids) ++ rest) (some v)
        = v :: digitRunsAux (mids ++ rest) none := by
      simp [digitRunsAux, hc]
    rw [hstep, digitRunsAux_skip mids rest
      (fun c2 h2 => h c2 (List.mem_cons_of_mem c h2))]

/-- Counterexample to claim C6's range bound: the parser extracts the
integers verbatim with no clamping, so values far above 100 are returned
as-is by `analyzePerformance`. -/
theorem parseScores_not_bounded :
    parseScores "Expected engagement: 250. Confidence: 3000." = (250, 3000)
    ∧ analyzePerformance
        (fun _ _ => .ok (some "Expected engagement: 250. Confidence: 3000."))
        { text := "c" } cexReq
      = .ok { expectedEngagement := 250, confidenceScore := 3000 }
    ∧ ¬ (250 ≤ 100) :=
  ⟨rfl, rfl, by decide⟩

theorem digitRunsAux_emit (rest : List Char) (v : Nat)
    (h : rest = [] ∨ ∃ c r, rest = c :: r ∧ c.isDigit = false) :
    digitRunsAux rest (some v) = v :: digitRunsAux rest none := by
  rcases h with rfl | ⟨c, r, rfl, hc⟩
  · rfl
  · simp [digitRunsAux, hc]

/-- Claim C6 (amended): the performance parser sets `expectedEngagement`
to the first maximal digit run of the engine's response text and
`confidenceScore` to the second, each defaulting to 0 when the
corresponding number is missing; the resulting values are whatever
integers appear — they are NOT clamped or checked to lie in 0..100 (see
the counterexample).  The text after the second run is arbitrary (it must
merely not extend that run: the tail is empty or starts with a
non-digit), so responses carrying a third or later integer are covered
and those extra integers are ignored. -/
theorem parseScores_first_two_integers (pre mid n m rest : List Char)
    (hpre : ∀ c ∈ pre, c.isDigit = false)
    (hmid : ∀ c ∈ mid, c.isDigit = false)
    (hn : n ≠ []) (hnd : ∀ c ∈ n, c.isDigit = true)
    (hm : m ≠ []) (hmd : ∀ c ∈ m, c.isDigit = true)
    (hmidne : mid ≠ [])
    (hrest : rest = [] ∨ ∃ c r, rest = c :: r ∧ c.isDigit = false) :
    parseScores (String.mk (pre ++ n ++ mid ++ m ++ rest))
      = (runVal 0 n, runVal 0 m)
    ∧ (∀ post : List Char, (∀ c ∈ post, c.isDigit = false) →
        parseScores (String.mk (pre ++ n ++ post)) = (runVal 0 n, 0))
    ∧ parseScores (String.mk pre) = (0, 0)
    ∧ (∀ (engine : Engine) (content : PostContent) (req : ContentRequest)
        (analysis : String),
        engine perfSystemPrompt (perfUserPrompt content req)
          = .ok (some analysis) →
        analyzePerformance engine content req
          = .ok { expectedEngagement := (parseScores analysis).1,
                  confidenceScore := (parseScores analysis).2 }) := by
  refine ⟨?_, ?_, ?_, ?_⟩
  · have hruns : digitRunsAux (pre ++ (n ++ (mid ++ (m ++ rest)))) none
        = runVal 0 n :: runVal 0 m :: digitRunsAux rest none := by
      rw [digitRunsAux_skip _ _ hpre, digitRunsAux_start _ _ hn hnd,
        digitRunsAux_sep _ _ _ hmidne hmid, digitRunsAux_start _ _ hm hmd,
        digitRunsAux_emit _ _ hrest]
    have e1 : pre ++ n ++ mid ++ m ++ rest
        = pre ++ (n ++ (mid ++ (m ++ rest))) := by simp
    simp [parseScores, e1, hruns]
  · intro post hpost
    have hruns : digitRunsAux (pre ++ (n ++ post)) none = [runVal 0 n] := by
      rw [digitRunsAux_skip _ _ hpre, digitRunsAux_start _ _ hn hnd,
        digitRunsAux_fin _ _ hpost]
    have e1 : pre ++ n ++ post = pre ++ (n ++ post) := by simp
    simp [parseScores, e1, hruns]
  · simp [parseScores, digitRunsAux_none_nil pre hpre]
  · intro engine content req analysis heng
    simp [analyzePerformance, heng]

theorem parseScores_first_two_integers_witness :
    parseScores (String.mk ("Engagement: ".data ++ "85".data
        ++ ", confidence: ".data ++ "75".data
        ++ ". Rated 100 overall.".data))
      = (85, 75)
    ∧ parseScores (String.mk ("Engagement: ".data ++ "85".data ++ ".".data))
      = (85, 0)
    ∧ parseScores (String.mk "Engagement: ".data) = (0, 0)
    ∧ analyzePerformance (fun _ _ => .ok (some "85 75")) { text := "c" }
        cexReq
      = .ok { expectedEngagement := 85, confidenceScore := 75 } := by
  have h := parseScores_first_two_integers "Engagement: ".data
    ", confidence: ".data "85".data "75".data ". Rated 100 overall.".data
    (by decide) (by decide) (by decide) (by decide) (by decide) (by decide)
    (by decide)
    (Or.inr ⟨'.', " Rated 100 overall.".data, rfl, by decide⟩)
  refine ⟨?_, ?_, h.2.2.1, ?_⟩
  · rw [h.1]; rfl
  · rw [h.2.1 ".".data (by decide)]; rfl
  · exact h.2.2.2 (fun _ _ => .ok (some "85 75")) { text := "c" } cexReq
      "85 75" rfl
